import Mathlib

/-!
Verification of the call-complaints webhook service (`app.py`).

The Flask app keeps an in-memory list `call_data_storage` of call records.
`webhook` (POST /api/webhook) normalizes an incoming JSON payload into a
record dict, classifies category/priority from the transcript when absent,
coerces the duration, appends the record and pops the head when the list
exceeds 100.  `get_calls` returns the storage sorted by timestamp descending,
`get_call_stats` aggregates statistics, `add_sample_data` extends the
storage with five synthetic records plus one urgent record, `clear_data`
resets it.

Python values occurring in payloads are modelled by `Json` (numbers as
integers), Python truthiness by `Json.truthy`, `dict.get` by
`dictGet`/`dictGetD`, the `a or b` fallback chains by `pyOr`, `int(str)` by
`pyInt`, and the float arithmetic of `round(x, 2)` by exact rationals with
round-half-to-even (`pyRound2`).  The server clock and the random id suffix
are nondeterministic inputs, passed as explicit parameters.  An uncaught
Python exception inside the handler (caught by the route's `except` and
turned into a 500 response with no record stored) is modelled by `none` /
`Option`-valued results.
-/

/-- A JSON value (Python object) as stored in payloads and records.
Numbers are modelled as integers. -/
inductive Json where
  | null : Json
  | bool : Bool → Json
  | num : Int → Json
  | str : String → Json
  | arr : List Json → Json
  | obj : List (String × Json) → Json
deriving Repr

/-- Python truthiness: `None`, `False`, `0`, `""`, `[]`, `{}` are falsy. -/
def Json.truthy : Json → Bool
  | .null => false
  | .bool b => b
  | .num n => n != 0
  | .str s => s != ""
  | .arr xs => !xs.isEmpty
  | .obj kvs => !kvs.isEmpty

/-- `data.get(k)`: `none` models Python `None` for an absent key. -/
def dictGet (kvs : List (String × Json)) (k : String) : Option Json :=
  (kvs.find? (fun kv => kv.1 == k)).map (·.2)

/-- `data.get(k, d)`: lookup with a default for an absent key. -/
def dictGetD (kvs : List (String × Json)) (k : String) (d : Json) : Json :=
  (dictGet kvs k).getD d

/-- Coerce `data.get(k)`'s `Option` into a `Json` value, with Python
`None` becoming `Json.null` (falsy, so transparent to `or`-chains). -/
def optJson : Option Json → Json
  | some v => v
  | none => .null

/-- Python `a or b`: `a` if truthy, else `b`. -/
def pyOr (a b : Json) : Json := if a.truthy then a else b

/-- Python `v == s` for a string literal `s`: true exactly when `v` is
that string (no value of another type compares equal to a `str`). -/
def pyEqStr (v : Json) (s : String) : Bool :=
  match v with
  | .str t => t == s
  | _ => false

/-- Decides whether `needle` occurs as a contiguous sublist of the list. -/
def hasSubList (needle : List Char) : List Char → Bool
  | [] => needle.isEmpty
  | c :: t => needle.isPrefixOf (c :: t) || hasSubList needle t

/-- Python `needle in hay` on strings: substring containment. -/
def strContains (hay needle : String) : Bool :=
  hasSubList needle.toList hay.toList

/-- `any(word in tl for word in ws)`. -/
def kwAny (tl : String) (ws : List String) : Bool :=
  ws.any (fun w => strContains tl w)

/-- `str.lower()` (ASCII range), computed structurally over the char list. -/
def strLower (s : String) : String := String.mk (s.data.map Char.toLower)

/-- Strip leading and trailing whitespace, as `int(str)` allows. -/
def listTrim (cs : List Char) : List Char :=
  ((cs.dropWhile (·.isWhitespace)).reverse.dropWhile (·.isWhitespace)).reverse

/-- Digits of a Python int literal after the first digit; a single
underscore is allowed between digits (as `int` accepts). -/
def parseDigitTail (acc : Nat) : List Char → Option Nat
  | [] => some acc
  | '_' :: c :: cs =>
      if c.isDigit then parseDigitTail (10 * acc + (c.toNat - 48)) cs else none
  | c :: cs =>
      if c.isDigit then parseDigitTail (10 * acc + (c.toNat - 48)) cs else none

/-- Python `int(s)`: optional surrounding whitespace, optional sign,
then decimal digits; `none` models `ValueError`. -/
def pyInt (s : String) : Option Int :=
  match listTrim s.data with
  | '+' :: c :: cs =>
      if c.isDigit then (parseDigitTail (c.toNat - 48) cs).map Int.ofNat else none
  | '-' :: c :: cs =>
      if c.isDigit then (parseDigitTail (c.toNat - 48) cs).map (fun n => -(n : Int)) else none
  | c :: cs =>
      if c.isDigit then (parseDigitTail (c.toNat - 48) cs).map Int.ofNat else none
  | [] => none

/-- One stored call record: the dict built at lines 82-99 of `app.py`.
Payload-derived fields keep whatever Python value the payload supplied,
so they are `Json`; `timestamp` is the server clock string. -/
structure CallRecord where
  id : Json
  timestamp : String
  webhook_data : Json
  transcript : Json
  summary : Json
  category : Json
  priority : Json
  user_id : Json
  duration : Json
  status : Json
  sentiment : Json
  language : Json
  call_type : Json
  agent_id : Json
  queue_time : Json
  resolution_time : Json
deriving Repr

/-- `data.get('call_id') or data.get('id') or f'call_{uuid4().hex[:8]}'`;
`gen` is the random hex suffix. -/
def resolveCallId (gen : String) (data : List (String × Json)) : Json :=
  pyOr (optJson (dictGet data "call_id"))
    (pyOr (optJson (dictGet data "id")) (.str ("call_" ++ gen)))

/-- `data.get('user_id') or data.get('user') or data.get('customer_id', '')`. -/
def resolveUserId (data : List (String × Json)) : Json :=
  pyOr (optJson (dictGet data "user_id"))
    (pyOr (optJson (dictGet data "user")) (dictGetD data "customer_id" (.str "")))

/-- `data.get('transcript') or data.get('conversation', '') or data.get('audio_text', '')`. -/
def resolveTranscript (data : List (String × Json)) : Json :=
  pyOr (optJson (dictGet data "transcript"))
    (pyOr (dictGetD data "conversation" (.str "")) (dictGetD data "audio_text" (.str "")))

/-- `data.get('summary') or data.get('call_summary', '') or data.get('analysis', '')`. -/
def resolveSummary (data : List (String × Json)) : Json :=
  pyOr (optJson (dictGet data "summary"))
    (pyOr (dictGetD data "call_summary" (.str "")) (dictGetD data "analysis" (.str "")))

/-- Keyword category detection over the lower-cased transcript
(lines 50-60 of `app.py`). -/
def detectCategory (tl : String) : String :=
  if kwAny tl ["technical", "error", "bug", "issue"] then "technical"
  else if kwAny tl ["billing", "payment", "charge", "invoice"] then "billing"
  else if kwAny tl ["service", "support", "help"] then "service"
  else if kwAny tl ["product", "feature", "upgrade"] then "product"
  else "other"

/-- Keyword priority escalation over the lower-cased transcript
(lines 65-72 of `app.py`); the priority stays `"medium"` when no
keyword matches. -/
def detectPriority (tl : String) : String :=
  if kwAny tl ["urgent", "emergency", "critical", "immediate", "asap"] then "urgent"
  else if kwAny tl ["important", "serious", "problem", "issue", "broken"] then "high"
  else "medium"

/-- Lines 47-60: keep a truthy explicit category; otherwise, when the
transcript is truthy, classify it — `transcript.lower()` raises
(`none`) unless the transcript is a string. -/
def applyCategory (category0 transcript : Json) : Option Json :=
  if !category0.truthy && transcript.truthy then
    match transcript with
    | .str t => some (.str (detectCategory (strLower t)))
    | _ => none
  else some category0

/-- Lines 63-72: re-classify only when the priority is exactly the string
`"medium"` and the transcript is truthy; `transcript.lower()` raises
(`none`) unless the transcript is a string. -/
def applyPriority (priority0 transcript : Json) : Option Json :=
  if pyEqStr priority0 "medium" && transcript.truthy then
    match transcript with
    | .str t => some (.str (detectPriority (strLower t)))
    | _ => none
  else some priority0

/-- Lines 75-80: a string duration is `int`-parsed with fallback 0;
any other value is kept as-is. -/
def coerceDuration : Json → Json
  | .str s => .num ((pyInt s).getD 0)
  | d => d

/-- The record dict built at lines 82-99 of `app.py`, given the already
classified category and priority. -/
def buildRecord (gen now : String) (data : List (String × Json))
    (category priority : Json) : CallRecord :=
  { id := resolveCallId gen data
    timestamp := now
    webhook_data := .obj data
    transcript := resolveTranscript data
    summary := resolveSummary data
    category := category
    priority := priority
    user_id := resolveUserId data
    duration := coerceDuration (dictGetD data "duration" (.num 0))
    status := dictGetD data "status" (.str "completed")
    sentiment := dictGetD data "sentiment" (.str "neutral")
    language := dictGetD data "language" (.str "en")
    call_type := dictGetD data "call_type" (.str "voice")
    agent_id := dictGetD data "agent_id" (.str "")
    queue_time := dictGetD data "queue_time" (.num 0)
    resolution_time := dictGetD data "resolution_time" (.num 0) }

/-- POST /api/webhook (lines 28-124).  `gen` is the random id suffix,
`now` the server clock reading.  Returns the new storage and the stored
record, `none` when the handler raised (non-dict payload, or a truthy
non-string transcript hitting `.lower()`) — then the storage is unchanged. -/
def webhook (gen now : String) (body : Json) (store : List CallRecord) :
    List CallRecord × Option CallRecord :=
  match body with
  | .obj data =>
    match applyCategory (dictGetD data "category" (.str "")) (resolveTranscript data),
          applyPriority (dictGetD data "priority" (.str "medium")) (resolveTranscript data) with
    | some category, some priority =>
      let r := buildRecord gen now data category priority
      let s1 := store ++ [r]
      (if s1.length > 100 then s1.drop 1 else s1, some r)
    | _, _ => (store, none)
  | _ => (store, none)

/-- GET /api/calls (line 141): `sorted(storage, key=timestamp, reverse=True)` —
a stable sort, descending by the timestamp string. -/
def get_calls (store : List CallRecord) : List CallRecord :=
  store.mergeSort (fun a b => decide (b.timestamp ≤ a.timestamp))

/-- The `i`-th synthetic record of POST /api/test/add-sample-data
(lines 201-230, `i` ranges over 1..5); `now` is the clock reading. -/
def sampleCall (now : String) (i : Nat) : CallRecord :=
  { id := .str ("sample_call_" ++ toString i)
    timestamp := now
    webhook_data := .obj
      [("call_id", .str ("sample_call_" ++ toString i)),
       ("user_id", .str ("user_" ++ toString i)),
       ("transcript", .str ("Sample call transcript " ++ toString i ++
          " - Customer reported a technical issue.")),
       ("summary", .str ("Sample call summary " ++ toString i ++
          " - Technical issue resolved.")),
       ("category", .str "technical"),
       ("priority", .str "medium"),
       ("duration", .num (120 + i * 30)),
       ("status", .str "completed")]
    transcript := .str ("Sample call transcript " ++ toString i ++
      " - Customer reported a technical issue.")
    summary := .str ("Sample call summary " ++ toString i ++
      " - Technical issue resolved.")
    category := .str "technical"
    priority := .str "medium"
    user_id := .str ("user_" ++ toString i)
    duration := .num (120 + i * 30)
    status := .str "completed"
    sentiment := .str "neutral"
    language := .str "en"
    call_type := .str "voice"
    agent_id := .str "sample_agent"
    queue_time := .num 5
    resolution_time := .num 300 }

/-- The fixed urgent record of POST /api/test/add-sample-data
(lines 233-259). -/
def urgentCall (now : String) : CallRecord :=
  { id := .str "urgent_call_1"
    timestamp := now
    webhook_data := .obj
      [("call_id", .str "urgent_call_1"),
       ("user_id", .str "urgent_user"),
       ("transcript", .str "URGENT: System is down and customers cannot access their accounts!"),
       ("summary", .str "Critical system outage affecting all users."),
       ("category", .str "technical"),
       ("priority", .str "urgent"),
       ("duration", .num 300),
       ("status", .str "completed")]
    transcript := .str "URGENT: System is down and customers cannot access their accounts!"
    summary := .str "Critical system outage affecting all users."
    category := .str "technical"
    priority := .str "urgent"
    user_id := .str "urgent_user"
    duration := .num 300
    status := .str "completed"
    sentiment := .str "negative"
    language := .str "en"
    call_type := .str "voice"
    agent_id := .str "urgent_agent"
    queue_time := .num 0
    resolution_time := .num 600 }

/-- POST /api/test/add-sample-data (lines 197-276): extends the storage
with the five synthetic records and the urgent record — no eviction. -/
def add_sample_data (now : String) (store : List CallRecord) : List CallRecord :=
  store ++ ((List.range 5).map (fun i => sampleCall now (i + 1)) ++ [urgentCall now])

/-- POST /api/test/clear-data (lines 278-295): resets the storage. -/
def clear_data (_store : List CallRecord) : List CallRecord := []

/-- Storage states reachable from the initial empty list through the
mutating endpoints. -/
inductive Reachable : List CallRecord → Prop where
  | init : Reachable []
  | webhookStep (gen now : String) (body : Json) {s : List CallRecord} :
      Reachable s → Reachable (webhook gen now body s).1
  | sampleStep (now : String) {s : List CallRecord} :
      Reachable s → Reachable (add_sample_data now s)
  | clearStep {s : List CallRecord} :
      Reachable s → Reachable (clear_data s)

/-- Python `round` to the nearest integer: half-way cases go to the even
neighbour (banker's rounding). -/
def pyRound (q : ℚ) : ℤ :=
  if q - ⌊q⌋ = (1 : ℚ) / 2 then (if 2 ∣ ⌊q⌋ then ⌊q⌋ else ⌊q⌋ + 1)
  else round q

/-- Python `round(x, 2)`, with the float arithmetic idealised over ℚ. -/
def pyRound2 (q : ℚ) : ℚ := (pyRound (q * 100) : ℚ) / 100

/-- The `stats` object returned by GET /api/calls/stats.  The category and
priority distributions are insertion-ordered key/count lists, as Python
dicts are. -/
structure StatsSummary where
  total_calls : Nat
  avg_duration : ℚ
  success_rate : ℚ
  urgent_calls : Nat
  categories : List (Json × Nat)
  priorities : List (Json × Nat)
deriving Repr

/-- A value Python's `sum` can add to an int: numbers, and booleans
(which count as 0/1); anything else raises `TypeError`. -/
def numVal : Json → Option Int
  | .num n => some n
  | .bool b => some (if b then 1 else 0)
  | _ => none

/-- `sum(call['duration'] for call in storage)`; `none` when some
duration is not a number (the generator expression raises). -/
def sumDurations : List CallRecord → Option Int
  | [] => some 0
  | r :: rs =>
    match numVal r.duration, sumDurations rs with
    | some n, some m => some (n + m)
    | _, _ => none

/-- Python `==` between dict keys: `True`/`False` compare equal to 1/0;
otherwise hashable JSON scalars compare structurally. -/
def pyKeyEq : Json → Json → Bool
  | .bool a, .bool b => a == b
  | .bool a, .num n => (if a then (1 : Int) else 0) == n
  | .num n, .bool a => n == (if a then (1 : Int) else 0)
  | .num a, .num b => a == b
  | .str a, .str b => a == b
  | .null, .null => true
  | _, _ => false

/-- A value usable as a Python dict key (lists and dicts are unhashable). -/
def hashable : Json → Bool
  | .arr _ => false
  | .obj _ => false
  | _ => true

/-- `d[k] = d.get(k, 0) + 1`: bump the count for `k`, keeping the
first-inserted key and insertion order; a new key goes to the end. -/
def bumpKey : List (Json × Nat) → Json → List (Json × Nat)
  | [], k => [(k, 1)]
  | (k', n) :: rest, k =>
    if pyKeyEq k' k then (k', n + 1) :: rest else (k', n) :: bumpKey rest k

/-- The tally loops of lines 174-183; `none` when some key is unhashable
(the assignment raises). -/
def tallyFrom (f : CallRecord → Json) (acc : List (Json × Nat)) :
    List CallRecord → Option (List (Json × Nat))
  | [] => some acc
  | r :: rs => if hashable (f r) then tallyFrom f (bumpKey acc (f r)) rs else none

/-- Number of records whose status is the string `"completed"`. -/
def completedCount (store : List CallRecord) : Nat :=
  (store.filter (fun r => pyEqStr r.status "completed")).length

/-- Number of records whose priority is the string `"urgent"`. -/
def urgentCount (store : List CallRecord) : Nat :=
  (store.filter (fun r => pyEqStr r.priority "urgent")).length

/-- GET /api/calls/stats (lines 150-195).  An empty storage yields the
all-zero summary; otherwise averages and rates are computed over the
whole storage.  `none` models the handler raising (non-numeric duration
in the sum, or an unhashable category/priority key). -/
def get_call_stats (store : List CallRecord) : Option StatsSummary :=
  if store.isEmpty then
    some { total_calls := 0, avg_duration := 0, success_rate := 0,
           urgent_calls := 0, categories := [], priorities := [] }
  else
    let total := store.length
    let success_rate : ℚ := ((completedCount store : ℚ) / (total : ℚ)) * 100
    match sumDurations store with
    | none => none
    | some s =>
      let avg : ℚ := (s : ℚ) / (total : ℚ)
      match tallyFrom (fun r => r.category) [] store,
            tallyFrom (fun r => r.priority) [] store with
      | some cats, some pris =>
        some { total_calls := total
               avg_duration := pyRound2 avg
               success_rate := pyRound2 success_rate
               urgent_calls := urgentCount store
               categories := cats
               priorities := pris }
      | _, _ => none

/-- Test fixture: a completed 100-second call. -/
def fixtureCallA : CallRecord :=
  { id := .str "a", timestamp := "2024-01-01T10:00:00", webhook_data := .obj []
    transcript := .str "", summary := .str "", category := .str "technical"
    priority := .str "low", user_id := .str "", duration := .num 100
    status := .str "completed", sentiment := .str "neutral", language := .str "en"
    call_type := .str "voice", agent_id := .str "", queue_time := .num 0
    resolution_time := .num 0 }

/-- Test fixture: a completed 200-second call. -/
def fixtureCallB : CallRecord :=
  { fixtureCallA with
    id := .str "b", timestamp := "2024-01-01T11:00:00"
    duration := .num 200, category := .str "billing" }

/-- Test fixture: a failed 300-second call. -/
def fixtureCallC : CallRecord :=
  { fixtureCallA with
    id := .str "c", timestamp := "2024-01-01T09:00:00"
    duration := .num 300, status := .str "failed" }

/-- Test fixture: first of two records sharing a timestamp. -/
def tieCallA : CallRecord :=
  { fixtureCallA with id := .str "tie_a", timestamp := "2024-02-02T12:00:00" }

/-- Test fixture: second of two records sharing a timestamp. -/
def tieCallB : CallRecord :=
  { fixtureCallA with id := .str "tie_b", timestamp := "2024-02-02T12:00:00" }

/-! ## Helper lemmas -/

theorem webhook_obj_eq {gen now : String} {data : List (String × Json)}
    {store : List CallRecord} {c p : Json}
    (hc : applyCategory (dictGetD data "category" (.str "")) (resolveTranscript data) = some c)
    (hp : applyPriority (dictGetD data "priority" (.str "medium")) (resolveTranscript data) = some p) :
    webhook gen now (.obj data) store =
      (if (store ++ [buildRecord gen now data c p]).length > 100
        then (store ++ [buildRecord gen now data c p]).drop 1
        else store ++ [buildRecord gen now data c p],
       some (buildRecord gen now data c p)) := by
  simp only [webhook, hc, hp]

theorem webhook_obj_some {gen now : String} {data : List (String × Json)}
    {store : List CallRecord} {r : CallRecord}
    (h : (webhook gen now (.obj data) store).2 = some r) :
    ∃ c p,
      applyCategory (dictGetD data "category" (.str "")) (resolveTranscript data) = some c ∧
      applyPriority (dictGetD data "priority" (.str "medium")) (resolveTranscript data) = some p ∧
      r = buildRecord gen now data c p := by
  unfold webhook at h
  dsimp only at h
  cases hc : applyCategory (dictGetD data "category" (.str "")) (resolveTranscript data) with
  | none => rw [hc] at h; cases h
  | some c =>
    cases hp : applyPriority (dictGetD data "priority" (.str "medium"))
        (resolveTranscript data) with
    | none => rw [hc, hp] at h; cases h
    | some p =>
      rw [hc, hp] at h
      dsimp only at h
      injection h with h
      exact ⟨c, p, rfl, rfl, h.symm⟩

theorem detectPriority_cases (s : String) :
    detectPriority s = "urgent" ∨ detectPriority s = "high" ∨ detectPriority s = "medium" := by
  unfold detectPriority
  split
  · exact Or.inl rfl
  · split
    · exact Or.inr (Or.inl rfl)
    · exact Or.inr (Or.inr rfl)

theorem applyPriority_default_cases {tr p : Json}
    (h : applyPriority (.str "medium") tr = some p) :
    p = .str "medium" ∨ p = .str "high" ∨ p = .str "urgent" := by
  unfold applyPriority at h
  split at h
  · cases tr with
    | str t =>
      rw [Option.some.injEq] at h
      rcases detectPriority_cases (strLower t) with hd | hd | hd <;>
        rw [← h, hd] <;> simp
    | null => cases h
    | bool b => cases h
    | num n => cases h
    | arr xs => cases h
    | obj kvs => cases h
  · rw [Option.some.injEq] at h
    exact Or.inl h.symm

theorem applyPriority_str_isSome (p0 : Json) (t : String) :
    (applyPriority p0 (.str t)).isSome := by
  unfold applyPriority
  split <;> simp

theorem add_sample_data_length (now : String) (store : List CallRecord) :
    (add_sample_data now store).length = store.length + 6 := by
  simp [add_sample_data]

/-! ## Claim theorems -/

/-- C1 (corrected claim, counterexample): the empty-object payload is not
rejected — starting from an empty store, ingesting the payload leaves the
store with one record (not unchanged) and a record is created. -/
theorem emptyPayloadAccepted_cex :
    ((webhook "a" "t" (.obj []) []).1).length = 1 ∧
      ((webhook "a" "t" (.obj []) []).2).isSome = true :=
  ⟨rfl, rfl⟩

/-- C1 (amended): for the empty-object payload, ingestion succeeds: a
CallRecord with generated id, empty transcript, summary, category and
user id, priority "medium" and duration 0 is appended to the store, and
(below capacity) the store size grows by one. -/
theorem emptyPayloadAccepted (gen now : String) (store : List CallRecord)
    (h : store.length < 100) :
    webhook gen now (.obj []) store =
      (store ++ [{ id := .str ("call_" ++ gen), timestamp := now, webhook_data := .obj []
                   transcript := .str "", summary := .str "", category := .str ""
                   priority := .str "medium", user_id := .str "", duration := .num 0
                   status := .str "completed", sentiment := .str "neutral"
                   language := .str "en", call_type := .str "voice", agent_id := .str ""
                   queue_time := .num 0, resolution_time := .num 0 }],
       some { id := .str ("call_" ++ gen), timestamp := now, webhook_data := .obj []
              transcript := .str "", summary := .str "", category := .str ""
              priority := .str "medium", user_id := .str "", duration := .num 0
              status := .str "completed", sentiment := .str "neutral"
              language := .str "en", call_type := .str "voice", agent_id := .str ""
              queue_time := .num 0, resolution_time := .num 0 }) := by
  rw [@webhook_obj_eq gen now [] store (.str "") (.str "medium") rfl rfl]
  rw [if_neg (by simp; omega)]
  rfl

/-- C1 witness: the amended claim at the concrete empty store. -/
theorem emptyPayloadAccepted_witness :
    webhook "a" "t" (.obj []) [] =
      ([{ id := .str "call_a", timestamp := "t", webhook_data := .obj []
          transcript := .str "", summary := .str "", category := .str ""
          priority := .str "medium", user_id := .str "", duration := .num 0
          status := .str "completed", sentiment := .str "neutral"
          language := .str "en", call_type := .str "voice", agent_id := .str ""
          queue_time := .num 0, resolution_time := .num 0 }],
       some { id := .str "call_a", timestamp := "t", webhook_data := .obj []
              transcript := .str "", summary := .str "", category := .str ""
              priority := .str "medium", user_id := .str "", duration := .num 0
              status := .str "completed", sentiment := .str "neutral"
              language := .str "en", call_type := .str "voice", agent_id := .str ""
              queue_time := .num 0, resolution_time := .num 0 }) :=
  emptyPayloadAccepted "a" "t" [] (by decide)

theorem webhook_length_le (gen now : String) (body : Json) (store : List CallRecord)
    (h : store.length ≤ 100) : ((webhook gen now body store).1).length ≤ 100 := by
  cases body with
  | obj data =>
    unfold webhook
    dsimp only
    cases hc : applyCategory (dictGetD data "category" (.str "")) (resolveTranscript data) with
    | none => exact h
    | some c =>
      cases hp : applyPriority (dictGetD data "priority" (.str "medium"))
          (resolveTranscript data) with
      | none => exact h
      | some p =>
        dsimp only
        split
        · next hgt =>
            simp only [List.length_drop, List.length_append, List.length_singleton] at hgt ⊢
            omega
        · next hle =>
            simp only [List.length_append, List.length_singleton] at hle ⊢
            omega
  | null => exact h
  | bool b => exact h
  | num n => exact h
  | str s => exact h
  | arr xs => exact h

theorem sample_iterate_reachable (now : String) :
    ∀ n : Nat, Reachable ((add_sample_data now)^[n] []) := by
  intro n
  induction n with
  | zero => exact Reachable.init
  | succ k ih =>
    rw [Function.iterate_succ_apply']
    exact Reachable.sampleStep now ih

theorem sample_iterate_length (now : String) :
    ∀ n : Nat, ((add_sample_data now)^[n] []).length = 6 * n := by
  intro n
  induction n with
  | zero => rfl
  | succ k ih =>
    rw [Function.iterate_succ_apply', add_sample_data_length, ih]
    omega

/-- C2 (corrected claim, counterexample): the size invariant does not hold
after every record-adding operation — there is a reachable store (sixteen
consecutive sample seedings, 96 records) from which one more
add_sample_data call leaves 102 records, exceeding the bound of 100. -/
theorem storeBound_cex :
    ∃ s : List CallRecord, Reachable s ∧ 100 < (add_sample_data "t" s).length := by
  refine ⟨(add_sample_data "t")^[16] [], sample_iterate_reachable "t" 16, ?_⟩
  rw [add_sample_data_length, sample_iterate_length]
  omega

/-- C2 (amended): webhook ingestion preserves the bound — if the store
holds at most 100 records before a webhook call it holds at most 100
after — but add_sample_data appends its 6 records with no eviction, so
repeated seeding pushes a reachable store past 100. -/
theorem storeBound_amended :
    (∀ (gen now : String) (body : Json) (store : List CallRecord),
      store.length ≤ 100 → ((webhook gen now body store).1).length ≤ 100) ∧
    (∀ (now : String) (store : List CallRecord),
      (add_sample_data now store).length = store.length + 6) :=
  ⟨webhook_length_le, add_sample_data_length⟩

/-- C2 witness: the amended claim at a concrete input — a webhook call on
the empty store keeps the bound, and one sample seeding on the empty
store yields exactly 6 records. -/
theorem storeBound_witness :
    ((webhook "a" "t" (.obj []) []).1).length ≤ 100 ∧
      (add_sample_data "t" []).length = 0 + 6 :=
  ⟨storeBound_amended.1 "a" "t" (.obj []) [] (by decide),
   storeBound_amended.2 "t" []⟩

/-- C3 (corrected claim, counterexample): ingesting the transcript "The
system is down, this is an emergency" with no explicit category or
priority yields category "other", not "technical" — the transcript
contains none of the technical keywords. -/
theorem classifierScenario_cex :
    ((webhook "a" "t"
        (.obj [("transcript", .str "The system is down, this is an emergency")]) []).2).map
      CallRecord.category = some (.str "other") ∧
    ((webhook "a" "t"
        (.obj [("transcript", .str "The system is down, this is an emergency")]) []).2).map
      CallRecord.category ≠ some (.str "technical") := by
  refine ⟨rfl, fun h => ?_⟩
  have e : ((webhook "a" "t"
      (.obj [("transcript", .str "The system is down, this is an emergency")]) []).2).map
      CallRecord.category = some (Json.str "other") := rfl
  have h2 := e.symm.trans h
  simp at h2

/-- C3 (amended): ingesting a payload whose transcript resolves to "The
system is down, this is an emergency" with no explicit category and no
explicit priority produces a record with category "other" (no category
keyword matches) and priority "urgent" (the urgency keyword "emergency"
matches). -/
theorem classifierScenario_amended (gen now : String) (store : List CallRecord)
    (data : List (String × Json))
    (hcat : dictGet data "category" = none) (hpri : dictGet data "priority" = none)
    (htr : resolveTranscript data = .str "The system is down, this is an emergency") :
    ((webhook gen now (.obj data) store).2).map CallRecord.category = some (.str "other") ∧
    ((webhook gen now (.obj data) store).2).map CallRecord.priority = some (.str "urgent") := by
  have hc : applyCategory (dictGetD data "category" (.str "")) (resolveTranscript data)
      = some (.str "other") := by
    rw [dictGetD, hcat, htr]; rfl
  have hp : applyPriority (dictGetD data "priority" (.str "medium")) (resolveTranscript data)
      = some (.str "urgent") := by
    rw [dictGetD, hpri, htr]; rfl
  rw [@webhook_obj_eq gen now data store _ _ hc hp]
  exact ⟨rfl, rfl⟩

/-- C3 witness: the amended claim at the concrete one-field payload. -/
theorem classifierScenario_witness :
    ((webhook "w" "t"
        (.obj [("transcript", .str "The system is down, this is an emergency")]) []).2).map
      CallRecord.category = some (.str "other") ∧
    ((webhook "w" "t"
        (.obj [("transcript", .str "The system is down, this is an emergency")]) []).2).map
      CallRecord.priority = some (.str "urgent") :=
  classifierScenario_amended "w" "t" []
    [("transcript", .str "The system is down, this is an emergency")] rfl rfl rfl

/-- C4 (corrected claim, counterexample): the payload with explicit
priority "banana" and duration -5 is accepted, and the stored record
carries priority "banana" (outside the four-value enum) and the negative
duration -5 unchanged. -/
theorem priorityDuration_cex :
    ((webhook "a" "t" (.obj [("priority", .str "banana"), ("duration", .num (-5))]) []).2).map
      CallRecord.priority = some (.str "banana") ∧
    ((webhook "a" "t" (.obj [("priority", .str "banana"), ("duration", .num (-5))]) []).2).map
      CallRecord.duration = some (.num (-5)) ∧
    (Json.str "banana" ≠ Json.str "low" ∧ Json.str "banana" ≠ Json.str "medium" ∧
      Json.str "banana" ≠ Json.str "high" ∧ Json.str "banana" ≠ Json.str "urgent") ∧
    (-5 : Int) < 0 := by
  refine ⟨rfl, rfl, ⟨by simp, by simp, by simp, by simp⟩, by norm_num⟩

/-- C4 (amended): for every accepted payload that supplies no explicit
priority key, the record's priority is one of "medium", "high", "urgent"
(hence inside the four-value enum); and for every accepted payload that
supplies no duration key, the record's duration is 0.  A supplied
priority passes through unvalidated, and a supplied negative or
non-string non-numeric duration is stored as-is, so the original
unconditional claim fails. -/
theorem priorityDuration_amended (gen now : String) (store : List CallRecord)
    (data : List (String × Json)) (r : CallRecord)
    (h : (webhook gen now (.obj data) store).2 = some r) :
    (dictGet data "priority" = none →
      r.priority = .str "medium" ∨ r.priority = .str "high" ∨ r.priority = .str "urgent") ∧
    (dictGet data "duration" = none → r.duration = .num 0) := by
  obtain ⟨c, p, hc, hp, hr⟩ := webhook_obj_some h
  subst hr
  constructor
  · intro hpri
    rw [dictGetD, hpri, Option.getD_none] at hp
    exact applyPriority_default_cases hp
  · intro hdur
    show coerceDuration (dictGetD data "duration" (.num 0)) = .num 0
    rw [dictGetD, hdur]
    rfl

/-- C4 witness: the amended claim at the empty payload, whose record has
priority "medium" and duration 0. -/
theorem priorityDuration_witness :
    ((buildRecord "w" "t" [] (.str "") (.str "medium")).priority = .str "medium" ∨
      (buildRecord "w" "t" [] (.str "") (.str "medium")).priority = .str "high" ∨
      (buildRecord "w" "t" [] (.str "") (.str "medium")).priority = .str "urgent") ∧
    (buildRecord "w" "t" [] (.str "") (.str "medium")).duration = .num 0 :=
  ⟨(priorityDuration_amended "w" "t" [] [] _ rfl).1 rfl,
   (priorityDuration_amended "w" "t" [] [] _ rfl).2 rfl⟩

/-- C5 (corrected claim, counterexample): for the empty payload (empty
transcript, no explicit category or priority) the stored category is the
empty string, not "other" — the classifier branch is skipped entirely
when the transcript is falsy. -/
theorem emptyTranscript_cex :
    ((webhook "b" "t" (.obj []) []).2).map CallRecord.category = some (.str "") ∧
    ((webhook "b" "t" (.obj []) []).2).map CallRecord.category ≠ some (.str "other") := by
  refine ⟨rfl, fun h => ?_⟩
  have e : ((webhook "b" "t" (.obj []) []).2).map CallRecord.category
      = some (Json.str "") := rfl
  have h2 := e.symm.trans h
  simp at h2

/-- C5 (amended): for every payload whose transcript resolves to a falsy
value (empty or absent) with no explicit category and no explicit
priority, the produced record has category "" (the lookup default, left
unclassified) and priority "medium". -/
theorem emptyTranscript_amended (gen now : String) (store : List CallRecord)
    (data : List (String × Json))
    (htr : (resolveTranscript data).truthy = false)
    (hcat : dictGet data "category" = none) (hpri : dictGet data "priority" = none) :
    ((webhook gen now (.obj data) store).2).map CallRecord.category = some (.str "") ∧
    ((webhook gen now (.obj data) store).2).map CallRecord.priority = some (.str "medium") := by
  have hc : applyCategory (dictGetD data "category" (.str "")) (resolveTranscript data)
      = some (.str "") := by
    rw [dictGetD, hcat, Option.getD_none]
    unfold applyCategory
    rw [htr]
    simp
  have hp : applyPriority (dictGetD data "priority" (.str "medium")) (resolveTranscript data)
      = some (.str "medium") := by
    rw [dictGetD, hpri, Option.getD_none]
    unfold applyPriority
    rw [htr]
    simp
  rw [@webhook_obj_eq gen now data store _ _ hc hp]
  exact ⟨rfl, rfl⟩

/-- C5 witness: the amended claim at the empty payload. -/
theorem emptyTranscript_witness :
    ((webhook "w" "t" (.obj []) []).2).map CallRecord.category = some (.str "") ∧
    ((webhook "w" "t" (.obj []) []).2).map CallRecord.priority = some (.str "medium") :=
  emptyTranscript_amended "w" "t" [] [] rfl rfl rfl

/-- C6 (corrected claim, counterexample): a duration of JSON null is not
coerced to 0 — `isinstance(duration, str)` is false, so the null passes
into the record unchanged. -/
theorem durationNull_cex :
    ((webhook "a" "t" (.obj [("duration", .null)]) []).2).map CallRecord.duration
      = some .null ∧
    ((webhook "a" "t" (.obj [("duration", .null)]) []).2).map CallRecord.duration
      ≠ some (.num 0) := by
  refine ⟨rfl, fun h => ?_⟩
  have e : ((webhook "a" "t" (.obj [("duration", .null)]) []).2).map CallRecord.duration
      = some Json.null := rfl
  have h2 := e.symm.trans h
  simp at h2

/-- C6 (amended): for every accepted payload, the record's duration is
resolved as: a numeric source value is used as-is; a string source value
is integer-parsed with 0 on parse failure; an absent key resolves to 0;
a source value of any other type (null, list, object, boolean) is stored
unchanged — not coerced to 0 as the original claim says. -/
theorem durationResolution_amended (gen now : String) (store : List CallRecord)
    (data : List (String × Json)) (r : CallRecord)
    (h : (webhook gen now (.obj data) store).2 = some r) :
    r.duration = coerceDuration (dictGetD data "duration" (.num 0)) ∧
    (∀ n : Int, dictGetD data "duration" (.num 0) = .num n → r.duration = .num n) ∧
    (∀ sv : String, dictGetD data "duration" (.num 0) = .str sv →
      r.duration = .num ((pyInt sv).getD 0)) ∧
    (dictGet data "duration" = none → r.duration = .num 0) ∧
    (∀ v : Json, dictGetD data "duration" (.num 0) = v → (∀ sv : String, v ≠ .str sv) →
      r.duration = v) := by
  obtain ⟨c, p, hc, hp, hr⟩ := webhook_obj_some h
  subst hr
  have hdur : (buildRecord gen now data c p).duration
      = coerceDuration (dictGetD data "duration" (.num 0)) := rfl
  refine ⟨hdur, ?_, ?_, ?_, ?_⟩
  · intro n hn; rw [hdur, hn]; rfl
  · intro sv hs; rw [hdur, hs]; rfl
  · intro habs; rw [hdur, dictGetD, habs]; rfl
  · intro v hv hns
    rw [hdur, hv]
    cases v with
    | str sv => exact absurd rfl (hns sv)
    | null => rfl
    | bool b => rfl
    | num n => rfl
    | arr xs => rfl
    | obj kvs => rfl

/-- C6 witness: the amended claim at a payload carrying the string
duration "12", which parses to 12. -/
theorem durationResolution_witness :
    ((webhook "w" "t" (.obj [("duration", .str "12")]) []).2).map CallRecord.duration
      = some (.num ((pyInt "12").getD 0)) := by
  have h : (webhook "w" "t" (.obj [("duration", .str "12")]) []).2
      = some (buildRecord "w" "t" [("duration", .str "12")] (.str "") (.str "medium")) := rfl
  rw [h]
  simp only [Option.map_some']
  exact congrArg some
    ((durationResolution_amended "w" "t" [] [("duration", .str "12")] _ h).2.2.1 "12" rfl)

/-- C7 (confirmed): with an empty/absent explicit category and a
non-empty string transcript, the stored category is the keyword scan of
the lower-cased transcript — the four fixed keyword sets tried in the
fixed precedence order technical, billing, service, product, first
substring match winning, "other" when none matches — and a truthy
explicit category passes through unchanged. -/
theorem categoryKeywordScan :
    (∀ (gen now : String) (store : List CallRecord) (data : List (String × Json)) (t : String),
      dictGetD data "category" (.str "") = .str "" →
      resolveTranscript data = .str t → t ≠ "" →
      ((webhook gen now (.obj data) store).2).map CallRecord.category =
        some (.str (detectCategory (strLower t)))) ∧
    (∀ (gen now : String) (store : List CallRecord) (data : List (String × Json))
        (cv : Json) (r : CallRecord),
      dictGetD data "category" (.str "") = cv → cv.truthy = true →
      (webhook gen now (.obj data) store).2 = some r → r.category = cv) ∧
    (∀ tl : String, detectCategory tl =
      if kwAny tl ["technical", "error", "bug", "issue"] then "technical"
      else if kwAny tl ["billing", "payment", "charge", "invoice"] then "billing"
      else if kwAny tl ["service", "support", "help"] then "service"
      else if kwAny tl ["product", "feature", "upgrade"] then "product"
      else "other") := by
  refine ⟨?_, ?_, fun tl => rfl⟩
  · intro gen now store data t hcat htr htne
    have hc : applyCategory (dictGetD data "category" (.str "")) (resolveTranscript data)
        = some (.str (detectCategory (strLower t))) := by
      rw [hcat, htr]
      unfold applyCategory
      rw [if_pos (by simp [Json.truthy, bne_iff_ne, htne])]
    obtain ⟨p, hp⟩ := Option.isSome_iff_exists.mp
      (applyPriority_str_isSome (dictGetD data "priority" (.str "medium")) t)
    rw [← htr] at hp
    rw [@webhook_obj_eq gen now data store _ _ hc hp]
    rfl
  · intro gen now store data cv r hcat hctruthy h
    obtain ⟨c, p, hc, hp, hr⟩ := webhook_obj_some h
    subst hr
    rw [hcat] at hc
    unfold applyCategory at hc
    rw [if_neg (by simp [hctruthy])] at hc
    injection hc with hc
    show c = cv
    exact hc.symm

/-- C7 witness: the scan at the transcript "please help me" (service
keyword), and pass-through of the explicit category "custom". -/
theorem categoryKeywordScan_witness :
    ((webhook "w" "t" (.obj [("transcript", .str "please help me")]) []).2).map
      CallRecord.category = some (.str "service") ∧
    (buildRecord "w" "t" [("category", .str "custom"), ("transcript", .str "help")]
        (.str "custom") (.str "medium")).category = .str "custom" :=
  ⟨categoryKeywordScan.1 "w" "t" [] [("transcript", .str "please help me")]
      "please help me" rfl rfl (by decide),
   categoryKeywordScan.2.1 "w" "t" []
      [("category", .str "custom"), ("transcript", .str "help")] (.str "custom") _ rfl rfl rfl⟩

theorem ts_le_trans (a b c : CallRecord) :
    (decide (b.timestamp ≤ a.timestamp)) = true →
    (decide (c.timestamp ≤ b.timestamp)) = true →
    (decide (c.timestamp ≤ a.timestamp)) = true := by
  intro hab hbc
  exact decide_eq_true (le_trans (of_decide_eq_true hbc) (of_decide_eq_true hab))

theorem ts_le_total (a b : CallRecord) :
    ((decide (b.timestamp ≤ a.timestamp)) || (decide (a.timestamp ≤ b.timestamp))) = true := by
  simp only [Bool.or_eq_true, decide_eq_true_eq]
  exact le_total _ _

/-- C8 (confirmed): the call-listing endpoint returns exactly the current
store contents (a permutation), sorted by timestamp descending, and
records with equal timestamps keep their original insertion order (the
sort is stable), for every store state — including ones whose timestamps
are out of insertion order. -/
theorem listRecordsSorted (store : List CallRecord) :
    (get_calls store).Perm store ∧
    (get_calls store).Pairwise (fun a b => b.timestamp ≤ a.timestamp) ∧
    ∀ a b : CallRecord, [a, b].Sublist store → a.timestamp = b.timestamp →
      [a, b].Sublist (get_calls store) := by
  refine ⟨List.mergeSort_perm store _, ?_, ?_⟩
  · exact (List.sorted_mergeSort ts_le_trans ts_le_total store).imp
      (fun hab => of_decide_eq_true hab)
  · intro a b hsub heq
    exact List.pair_sublist_mergeSort ts_le_trans ts_le_total
      (decide_eq_true (le_of_eq heq.symm)) hsub

/-- C8 witness: two records sharing a timestamp stay in insertion order
in the sorted output. -/
theorem listRecordsSorted_witness :
    [tieCallA, tieCallB].Sublist (get_calls [tieCallA, tieCallB]) :=
  (listRecordsSorted [tieCallA, tieCallB]).2.2 tieCallA tieCallB (List.Sublist.refl _) rfl

theorem get_call_stats_eq (store : List CallRecord) (s : Int) (cats pris : List (Json × Nat))
    (hne : store ≠ []) (hs : sumDurations store = some s)
    (hc : tallyFrom (fun r => r.category) [] store = some cats)
    (hp : tallyFrom (fun r => r.priority) [] store = some pris) :
    get_call_stats store = some
      { total_calls := store.length
        avg_duration := pyRound2 ((s : ℚ) / (store.length : ℚ))
        success_rate := pyRound2 (((completedCount store : ℚ) / (store.length : ℚ)) * 100)
        urgent_calls := urgentCount store
        categories := cats
        priorities := pris } := by
  unfold get_call_stats
  rw [if_neg (by simp [hne])]
  rw [hs, hc, hp]

/-- C9 (confirmed): over the empty store the stats endpoint returns the
all-zero summary with empty category and priority mappings (not an
error); over a non-empty store it returns avgDuration = sum/count and
successRate = 100 x completed/count, both rounded to 2 decimal places —
in particular, for durations 100, 200, 300 with statuses completed,
completed, failed it yields avgDuration = 200 and successRate = 66.67. -/
theorem statsAggregator :
    get_call_stats [] = some
      { total_calls := 0, avg_duration := 0, success_rate := 0
        urgent_calls := 0, categories := [], priorities := [] } ∧
    (∀ (store : List CallRecord) (s : Int) (cats pris : List (Json × Nat)),
      store ≠ [] → sumDurations store = some s →
      tallyFrom (fun r => r.category) [] store = some cats →
      tallyFrom (fun r => r.priority) [] store = some pris →
      get_call_stats store = some
        { total_calls := store.length
          avg_duration := pyRound2 ((s : ℚ) / (store.length : ℚ))
          success_rate := pyRound2 (((completedCount store : ℚ) / (store.length : ℚ)) * 100)
          urgent_calls := urgentCount store
          categories := cats
          priorities := pris }) ∧
    (get_call_stats [fixtureCallA, fixtureCallB, fixtureCallC]).map StatsSummary.avg_duration
      = some 200 ∧
    (get_call_stats [fixtureCallA, fixtureCallB, fixtureCallC]).map StatsSummary.success_rate
      = some (6667 / 100) := by
  refine ⟨rfl,
    fun store s cats pris hne hs hc hp => get_call_stats_eq store s cats pris hne hs hc hp,
    ?_, ?_⟩
  · rw [get_call_stats_eq [fixtureCallA, fixtureCallB, fixtureCallC] 600
      [(.str "technical", 2), (.str "billing", 1)] [(.str "low", 3)]
      (by simp) rfl rfl rfl]
    simp only [Option.map_some']
    refine congrArg some ?_
    show pyRound2 (((600 : Int) : ℚ) / ((3 : Nat) : ℚ)) = 200
    norm_num [pyRound2, pyRound, round_eq]
  · rw [get_call_stats_eq [fixtureCallA, fixtureCallB, fixtureCallC] 600
      [(.str "technical", 2), (.str "billing", 1)] [(.str "low", 3)]
      (by simp) rfl rfl rfl]
    simp only [Option.map_some']
    refine congrArg some ?_
    show pyRound2 ((((2 : Nat) : ℚ) / ((3 : Nat) : ℚ)) * 100) = 6667 / 100
    norm_num [pyRound2, pyRound, round_eq]

/-- C9 witness: the non-empty formula instantiated at the three fixture
records. -/
theorem statsAggregator_witness :
    get_call_stats [fixtureCallA, fixtureCallB, fixtureCallC] = some
      { total_calls := 3
        avg_duration := pyRound2 (((600 : Int) : ℚ) / ((3 : Nat) : ℚ))
        success_rate := pyRound2 ((((2 : Nat) : ℚ) / ((3 : Nat) : ℚ)) * 100)
        urgent_calls := 0
        categories := [(.str "technical", 2), (.str "billing", 1)]
        priorities := [(.str "low", 3)] } :=
  statsAggregator.2.1 [fixtureCallA, fixtureCallB, fixtureCallC] 600
    [(.str "technical", 2), (.str "billing", 1)] [(.str "low", 3)]
    (by simp) rfl rfl rfl

/-- C10 (confirmed): every record created by webhook ingestion carries,
beyond the canonical fields, the four extra payload-derived fields with
their defaults — call_type ("voice"), agent_id (""), queue_time (0),
resolution_time (0) — and stores the untouched original payload under
webhook_data. -/
theorem extraFieldsStored (gen now : String) (store : List CallRecord)
    (data : List (String × Json)) (r : CallRecord)
    (h : (webhook gen now (.obj data) store).2 = some r) :
    r.call_type = dictGetD data "call_type" (.str "voice") ∧
    r.agent_id = dictGetD data "agent_id" (.str "") ∧
    r.queue_time = dictGetD data "queue_time" (.num 0) ∧
    r.resolution_time = dictGetD data "resolution_time" (.num 0) ∧
    r.webhook_data = .obj data := by
  obtain ⟨c, p, hc, hp, hr⟩ := webhook_obj_some h
  subst hr
  exact ⟨rfl, rfl, rfl, rfl, rfl⟩

/-- C10 witness: the extra fields at a payload carrying call_type "chat". -/
theorem extraFieldsStored_witness :
    (buildRecord "w" "t" [("call_type", .str "chat")] (.str "") (.str "medium")).call_type
      = dictGetD [("call_type", .str "chat")] "call_type" (.str "voice") ∧
    (buildRecord "w" "t" [("call_type", .str "chat")] (.str "") (.str "medium")).agent_id
      = dictGetD [("call_type", .str "chat")] "agent_id" (.str "") ∧
    (buildRecord "w" "t" [("call_type", .str "chat")] (.str "") (.str "medium")).queue_time
      = dictGetD [("call_type", .str "chat")] "queue_time" (.num 0) ∧
    (buildRecord "w" "t" [("call_type", .str "chat")] (.str "") (.str "medium")).resolution_time
      = dictGetD [("call_type", .str "chat")] "resolution_time" (.num 0) ∧
    (buildRecord "w" "t" [("call_type", .str "chat")] (.str "") (.str "medium")).webhook_data
      = .obj [("call_type", .str "chat")] :=
  extraFieldsStored "w" "t" [] [("call_type", .str "chat")]
    (buildRecord "w" "t" [("call_type", .str "chat")] (.str "") (.str "medium")) rfl
